import Mathlib

/-!
Shallow embedding of the booking/slot consistency engine of the
university appointment scheduler (source files src/lib/mockApi.ts and
src/utils/helpers.ts).

Timestamps are modelled as epoch milliseconds (Int), matching the
JavaScript Date.getTime() values the source compares.  The float
division by 3600000 in the hour computations is modelled exactly in ℚ:
for integer millisecond differences the IEEE double quotient is far
more than half an ulp away from the comparison thresholds 1 and 24, so
the Bool results agree with the exact rational comparison.

localStorage is modelled as a Store record holding the three
collections.  Each API function returns a pair (result, updated store);
on every thrown error the store is returned unchanged, because in the
source every saveToStorage call occurs after the last throw site of the
function.  The uid() fresh-identifier generator and the ambient wall
clock are passed in as explicit arguments (newId, now).
-/

inductive Role where
  | STUDENT
  | TEACHER
deriving DecidableEq

structure User where
  id : String
  name : String
  role : Role
  email : String
deriving DecidableEq

structure Slot where
  id : String
  teacherId : String
  startISO : Int
  endISO : Int
  location : String
  maxSeats : Int
  availableSeats : Int
deriving DecidableEq

inductive Status where
  | BOOKED
  | CANCELLED
  | ATTENDED
deriving DecidableEq

structure Appointment where
  id : String
  slotId : String
  studentId : String
  status : Status
  notes : Option String
  createdAt : Int
  cancelledAt : Option Int
deriving DecidableEq

/-- helpers.ts: hoursUntilSlot, the quantity
(slotStart.getTime() - now.getTime()) / (1000 * 60 * 60), as the exact
rational quotient of the two integers (Rat.divInt, which the kernel can
evaluate, rather than the Field division of ℚ, which it cannot). -/
def hoursUntil (target now : Int) : ℚ :=
  Rat.divInt (target - now) (1000 * 60 * 60)

/-- helpers.ts isWithinCancellationWindow: true iff more than 24 hours
remain before the slot start. -/
def isWithinCancellationWindow (slotStart now : Int) : Bool :=
  decide (hoursUntil slotStart now > 24)

/-- helpers.ts isBookingAllowed: true iff more than 1 hour remains
before the slot start. -/
def isBookingAllowed (slotStart now : Int) : Bool :=
  decide (hoursUntil slotStart now > 1)

/-- helpers.ts slotsOverlap: s1 < e2 AND s2 < e1 on the getTime values. -/
def slotsOverlap (start1 end1 start2 end2 : Int) : Bool :=
  decide (start1 < end2 ∧ start2 < end1)

/-- The localStorage database: collections uas_users, uas_slots,
uas_appointments. -/
structure Store where
  users : List User
  slots : List Slot
  appointments : List Appointment
deriving DecidableEq

/-- JavaScript pattern `idx = list.findIndex(p); list[idx] = f(list[idx])`:
replace the first element satisfying p. -/
def updateFirst (p : α → Bool) (f : α → α) : List α → List α
  | [] => []
  | x :: xs => if p x then f x :: xs else x :: updateFirst p f xs

/-- Errors thrown by mockApi.ts createSlot, named after the taxonomy of
the specification; each constructor corresponds to one throw site. -/
inductive CreateSlotErr where
  | InvalidTeacher
  | InvalidTimeRange
  | OverlappingSlot
deriving DecidableEq

/-- The Omit<Slot, "id"> argument of createSlot.  The availableSeats
field is accepted (it is part of the TypeScript type) but overridden
with maxSeats by createSlot. -/
structure SlotData where
  teacherId : String
  startISO : Int
  endISO : Int
  location : String
  maxSeats : Int
  availableSeats : Int
deriving DecidableEq

/-- mockApi.ts createSlot. -/
def createSlot (slotData : SlotData) (newId : String) (σ : Store) :
    Except CreateSlotErr Slot × Store :=
  match σ.users.find? (fun u => u.id == slotData.teacherId && u.role == Role.TEACHER) with
  | none => (.error .InvalidTeacher, σ)
  | some _ =>
    if slotData.startISO ≥ slotData.endISO then
      (.error .InvalidTimeRange, σ)
    else if (σ.slots.find? (fun s =>
        s.teacherId == slotData.teacherId &&
        slotsOverlap s.startISO s.endISO slotData.startISO slotData.endISO)).isSome then
      (.error .OverlappingSlot, σ)
    else
      let newSlot : Slot :=
        { id := newId, teacherId := slotData.teacherId, startISO := slotData.startISO,
          endISO := slotData.endISO, location := slotData.location,
          maxSeats := slotData.maxSeats, availableSeats := slotData.maxSeats }
      (.ok newSlot, { σ with slots := σ.slots ++ [newSlot] })

/-- Errors thrown by mockApi.ts bookAppointment, in source order of the
throw sites. -/
inductive BookErr where
  | InvalidStudent
  | SlotNotFound
  | SlotFull
  | TooLateToBook
  | ConflictingAppointment
deriving DecidableEq

/-- The conflict scan of bookAppointment: some BOOKED appointment of the
student has a slot whose range overlaps the candidate slot.  Appointments
whose slotId does not resolve are skipped, exactly as in the source loop. -/
def hasConflict (σ : Store) (studentId : String) (slot : Slot) : Bool :=
  (σ.appointments.filter
      (fun a => a.studentId == studentId && a.status == Status.BOOKED)).any
    (fun a =>
      match σ.slots.find? (fun s => s.id == a.slotId) with
      | some apptSlot =>
          slotsOverlap slot.startISO slot.endISO apptSlot.startISO apptSlot.endISO
      | none => false)

/-- mockApi.ts bookAppointment. -/
def bookAppointment (slotId studentId : String) (notes : Option String)
    (now : Int) (newId : String) (σ : Store) : Except BookErr Appointment × Store :=
  match σ.users.find? (fun u => u.id == studentId && u.role == Role.STUDENT) with
  | none => (.error .InvalidStudent, σ)
  | some _ =>
    match σ.slots.find? (fun s => s.id == slotId) with
    | none => (.error .SlotNotFound, σ)
    | some slot =>
      if slot.availableSeats ≤ 0 then
        (.error .SlotFull, σ)
      else if !isBookingAllowed slot.startISO now then
        (.error .TooLateToBook, σ)
      else if hasConflict σ studentId slot then
        (.error .ConflictingAppointment, σ)
      else
        let newAppointment : Appointment :=
          { id := newId, slotId := slotId, studentId := studentId,
            status := Status.BOOKED, notes := notes, createdAt := now,
            cancelledAt := none }
        (.ok newAppointment,
          { σ with
            appointments := σ.appointments ++ [newAppointment],
            slots := updateFirst (fun s => s.id == slotId)
              (fun s => { s with availableSeats := s.availableSeats - 1 }) σ.slots })

/-- Errors thrown by mockApi.ts cancelAppointment, in source order of
the throw sites.  AssociatedSlotNotFound is the "Associated slot not
found" throw, an error kind absent from the specification taxonomy. -/
inductive CancelErr where
  | AppointmentNotFound
  | AssociatedSlotNotFound
  | NotAuthorized
  | TooLateToCancel
deriving DecidableEq

/-- mockApi.ts cancelAppointment. -/
def cancelAppointment (appointmentId userId : String) (now : Int) (σ : Store) :
    Except CancelErr Unit × Store :=
  match σ.appointments.find? (fun a => a.id == appointmentId) with
  | none => (.error .AppointmentNotFound, σ)
  | some appointment =>
    match σ.slots.find? (fun s => s.id == appointment.slotId) with
    | none => (.error .AssociatedSlotNotFound, σ)
    | some slot =>
      if appointment.studentId != userId && slot.teacherId != userId then
        (.error .NotAuthorized, σ)
      else if appointment.studentId == userId &&
          !isWithinCancellationWindow slot.startISO now then
        (.error .TooLateToCancel, σ)
      else
        (.ok (),
          { σ with
            appointments := updateFirst (fun a => a.id == appointmentId)
              (fun a => { a with status := Status.CANCELLED, cancelledAt := some now })
              σ.appointments,
            slots := updateFirst (fun s => s.id == appointment.slotId)
              (fun s => { s with availableSeats := s.availableSeats + 1 }) σ.slots })

/-- Error thrown by mockApi.ts markAttended. -/
inductive AttendErr where
  | AppointmentNotFound
deriving DecidableEq

/-- mockApi.ts markAttended: no authorization check and no status check;
sets the status of the first matching appointment to ATTENDED. -/
def markAttended (appointmentId : String) (σ : Store) :
    Except AttendErr Unit × Store :=
  match σ.appointments.find? (fun a => a.id == appointmentId) with
  | none => (.error .AppointmentNotFound, σ)
  | some _ =>
    (.ok (),
      { σ with
        appointments := updateFirst (fun a => a.id == appointmentId)
          (fun a => { a with status := Status.ATTENDED }) σ.appointments })

/-- Number of BOOKED appointments referencing a slot (an Int, matching
the JavaScript number arithmetic of availableSeats). -/
def bookedCount (σ : Store) (slotId : String) : Int :=
  (σ.appointments.countP
    (fun a => a.slotId == slotId && a.status == Status.BOOKED) : Int)

/-- The seat-count equality of the specification, for every slot of the
store. -/
def seatInvariant (σ : Store) : Prop :=
  ∀ s ∈ σ.slots, s.availableSeats = s.maxSeats - bookedCount σ s.id

/-- The seat-bounds property of the specification. -/
def seatBounds (σ : Store) : Prop :=
  ∀ s ∈ σ.slots, 0 ≤ s.availableSeats ∧ s.availableSeats ≤ s.maxSeats

/-- Slot ids are pairwise distinct (the data model's id uniqueness). -/
def slotIdsNodup (σ : Store) : Prop := (σ.slots.map Slot.id).Nodup

/-- Appointment ids are pairwise distinct. -/
def apptIdsNodup (σ : Store) : Prop := (σ.appointments.map Appointment.id).Nodup

/-- availableSeats of the first slot with the given id, if any. -/
def seatsOf (σ : Store) (slotId : String) : Option Int :=
  (σ.slots.find? (fun s => s.id == slotId)).map Slot.availableSeats

/-! ### Concrete demonstration data

A teacher, two students, and a one-seat slot starting at t = 360000000
milliseconds (100 hours after the epoch used as "now" in most
scenarios). -/

def teacher1 : User :=
  { id := "t1", name := "Prof. T", role := Role.TEACHER, email := "t@u.edu" }

def student1 : User :=
  { id := "st1", name := "Alice", role := Role.STUDENT, email := "a@u.edu" }

def student2 : User :=
  { id := "st2", name := "Bob", role := Role.STUDENT, email := "b@u.edu" }

def slot1 : Slot :=
  { id := "s1", teacherId := "t1", startISO := 360000000, endISO := 363600000,
    location := "Room 301", maxSeats := 1, availableSeats := 1 }

def appt1Booked : Appointment :=
  { id := "a1", slotId := "s1", studentId := "st1", status := Status.BOOKED,
    notes := none, createdAt := 0, cancelledAt := none }

/-- Store with users only. -/
def store0 : Store := { users := [teacher1, student1, student2], slots := [], appointments := [] }

/-- Store with an open one-seat slot and no appointments. -/
def storeAvail : Store :=
  { users := [teacher1, student1, student2], slots := [slot1], appointments := [] }

/-- Store where student1 holds a BOOKED appointment on the (now full)
slot. -/
def storeBooked : Store :=
  { users := [teacher1, student1, student2],
    slots := [{ slot1 with availableSeats := 0 }],
    appointments := [appt1Booked] }

/-- Store where the appointment has already been cancelled and the seat
released. -/
def storeCancelled : Store :=
  { users := [teacher1, student1, student2],
    slots := [slot1],
    appointments := [{ appt1Booked with status := Status.CANCELLED, cancelledAt := some 0 }] }

/-- Store where the appointment has been marked attended. -/
def storeAttended : Store :=
  { users := [teacher1, student1, student2],
    slots := [{ slot1 with availableSeats := 0 }],
    appointments := [{ appt1Booked with status := Status.ATTENDED }] }

/-- Store holding an appointment whose slotId resolves to no slot. -/
def storeDangling : Store :=
  { users := [teacher1, student1, student2],
    slots := [slot1],
    appointments := [{ id := "a2", slotId := "ghost", studentId := "st1",
                       status := Status.BOOKED, notes := none, createdAt := 0,
                       cancelledAt := none }] }

/-- One successful book-then-cancel round trip on the slot slotId: some
student books the slot under a fresh appointment id, and the resulting
appointment is then successfully cancelled by some actor at some time. -/
def BookCancelCycle (slotId : String) (σ σ₂ : Store) : Prop :=
  ∃ (studentId : String) (notes : Option String) (now : Int) (newId : String)
    (actor : String) (now₂ : Int) (a : Appointment) (σ₁ : Store),
    (∀ b ∈ σ.appointments, b.id ≠ newId) ∧
    bookAppointment slotId studentId notes now newId σ = (.ok a, σ₁) ∧
    (cancelAppointment a.id actor now₂ σ₁).1 = .ok () ∧
    σ₂ = (cancelAppointment a.id actor now₂ σ₁).2

/-- n successive book/cancel round trips on the slot slotId. -/
def bookCancelCycles (slotId : String) : Nat → Store → Store → Prop
  | 0, σ, σ₂ => σ₂ = σ
  | n + 1, σ, σ₂ => ∃ τ, BookCancelCycle slotId σ τ ∧ bookCancelCycles slotId n τ σ₂

/-- The slot-creation input used by the concrete scenarios. -/
def slotData1 : SlotData :=
  { teacherId := "t1", startISO := 360000000, endISO := 363600000,
    location := "Room 301", maxSeats := 1, availableSeats := 1 }

/-- Store obtained from store0 by the teacher creating a one-seat slot. -/
def cexStore1 : Store := (createSlot slotData1 "s1" store0).2

/-- Store obtained from cexStore1 by student1 booking the slot. -/
def cexStore2 : Store := (bookAppointment "s1" "st1" none 0 "a1" cexStore1).2

/-- Store after student1 books the open slot under appointment id a9. -/
def c8σ₁ : Store := (bookAppointment "s1" "st1" none 0 "a9" storeAvail).2

/-- Store after the teacher then cancels that appointment. -/
def c8σ₂ : Store := (cancelAppointment "a9" "t1" 0 c8σ₁).2

/-! ### List bookkeeping lemmas for updateFirst / countP -/

/-- Mapping a keyed conditional update over a list with no matching key
is the identity. -/
theorem map_ite_key_eq_self {α : Type} (k : α → String) (t : String) (f : α → α)
    (l : List α) (h : ∀ x ∈ l, k x ≠ t) :
    l.map (fun x => if k x == t then f x else x) = l := by
  induction l with
  | nil => rfl
  | cons x xs ih =>
    have hx : (k x == t) = false := by
      simp only [beq_eq_false_iff_ne, ne_eq]
      exact h x (List.mem_cons_self x xs)
    simp only [List.map_cons, hx, Bool.false_eq_true, if_false, List.cons.injEq, true_and]
    exact ih fun y hy => h y (List.mem_cons_of_mem x hy)

/-- When the keys of a list are pairwise distinct, replacing the first
element with a given key equals conditionally mapping over the whole
list. -/
theorem updateFirst_eq_map {α : Type} (k : α → String) (t : String) (f : α → α)
    (l : List α) (h : (l.map k).Nodup) :
    updateFirst (fun x => k x == t) f l
      = l.map (fun x => if k x == t then f x else x) := by
  induction l with
  | nil => rfl
  | cons x xs ih =>
    simp only [List.map_cons, List.nodup_cons, List.mem_map] at h
    by_cases hx : k x = t
    · have hnot : ∀ y ∈ xs, k y ≠ t := by
        intro y hy hky
        exact h.1 ⟨y, hy, by rw [hky, hx]⟩
      simp only [updateFirst, hx, beq_self_eq_true, if_true, List.map_cons,
        map_ite_key_eq_self k t f xs hnot]
    · have hbx : (k x == t) = false := by simp [hx]
      simp only [updateFirst, hbx, Bool.false_eq_true, if_false, List.map_cons]
      exact congrArg _ (ih h.2)

/-- Counting after a keyed single-element update: the count changes by
exactly the contribution of the updated element. -/
theorem countP_map_ite_add {α : Type} (k : α → String) (t : String) (f : α → α)
    (p : α → Bool) (l : List α) (h : (l.map k).Nodup) (x : α) (hx : x ∈ l)
    (hkx : k x = t) :
    (l.map fun y => if k y == t then f y else y).countP p
        + (if p x = true then 1 else 0)
      = l.countP p + (if p (f x) = true then 1 else 0) := by
  induction l with
  | nil => cases hx
  | cons y ys ih =>
    simp only [List.map_cons, List.nodup_cons, List.mem_map] at h
    rcases List.mem_cons.mp hx with hxy | hxys
    · subst hxy
      have hby : (k x == t) = true := by simp [hkx]
      have hnot : ∀ z ∈ ys, k z ≠ t := by
        intro z hz hkz
        exact h.1 ⟨z, hz, by rw [hkz, hkx]⟩
      simp only [List.map_cons, hby, if_true, List.countP_cons,
        map_ite_key_eq_self k t f ys hnot]
      omega
    · have hky : k y ≠ t := by
        intro hk
        exact h.1 ⟨x, hxys, by rw [hkx, hk]⟩
      have hby : (k y == t) = false := by simp [hky]
      simp only [List.map_cons, hby, Bool.false_eq_true, if_false, List.countP_cons]
      have := ih h.2 hxys
      omega

/-- Special case: the updated element counted before the update but not
after, so the count drops by exactly one. -/
theorem countP_map_ite_of_true_false {α : Type} (k : α → String) (t : String)
    (f : α → α) (p : α → Bool) (l : List α) (h : (l.map k).Nodup) (x : α)
    (hx : x ∈ l) (hkx : k x = t) (hpx : p x = true) (hpfx : p (f x) = false) :
    (l.map fun y => if k y == t then f y else y).countP p + 1 = l.countP p := by
  have hadd := countP_map_ite_add k t f p l h x hx hkx
  rw [hpx, hpfx] at hadd
  simpa using hadd

/-- Special case: the updated element counted neither before nor after,
so the count is unchanged. -/
theorem countP_map_ite_of_false_false {α : Type} (k : α → String) (t : String)
    (f : α → α) (p : α → Bool) (l : List α) (h : (l.map k).Nodup) (x : α)
    (hx : x ∈ l) (hkx : k x = t) (hpx : p x = false) (hpfx : p (f x) = false) :
    (l.map fun y => if k y == t then f y else y).countP p = l.countP p := by
  have hadd := countP_map_ite_add k t f p l h x hx hkx
  rw [hpx, hpfx] at hadd
  simpa using hadd

/-- Counting is unchanged by a keyed update that does not affect the
counted predicate. -/
theorem countP_map_ite_of_agree {α : Type} (k : α → String) (t : String)
    (f : α → α) (p : α → Bool) (l : List α)
    (h : ∀ x ∈ l, k x = t → p (f x) = p x) :
    (l.map fun y => if k y == t then f y else y).countP p = l.countP p := by
  induction l with
  | nil => rfl
  | cons y ys ih =>
    have tail := ih fun z hz => h z (List.mem_cons_of_mem y hz)
    by_cases hky : k y = t
    · have hby : (k y == t) = true := by simp [hky]
      simp only [List.map_cons, hby, if_true, List.countP_cons, tail,
        h y (List.mem_cons_self y ys) hky]
    · have hby : (k y == t) = false := by simp [hky]
      simp only [List.map_cons, hby, Bool.false_eq_true, if_false,
        List.countP_cons, tail]

/-- Finding by key after updating the first element with that key, when
the update preserves keys. -/
theorem find?_updateFirst {α : Type} (k : α → String) (t : String) (f : α → α)
    (hf : ∀ x, k (f x) = k x) (l : List α) :
    (updateFirst (fun x => k x == t) f l).find? (fun x => k x == t)
      = (l.find? (fun x => k x == t)).map f := by
  induction l with
  | nil => rfl
  | cons x xs ih =>
    by_cases hx : k x = t
    · have hbx : (k x == t) = true := by simp [hx]
      have hbfx : (k (f x) == t) = true := by simp [hf x, hx]
      simp [updateFirst, hbx, List.find?_cons, hbfx]
    · have hbx : (k x == t) = false := by simp [hx]
      simp [updateFirst, hbx, List.find?_cons, ih]

/-- Applying two successive first-element updates whose composition is
the identity restores the original list. -/
theorem updateFirst_comp_cancel {α : Type} (p : α → Bool) (f g : α → α)
    (hp : ∀ x, p (f x) = p x) (hgf : ∀ x, g (f x) = x) (l : List α) :
    updateFirst p g (updateFirst p f l) = l := by
  induction l with
  | nil => rfl
  | cons x xs ih =>
    by_cases hx : p x = true
    · simp [updateFirst, hx, hp x, hgf x]
    · have hbx : p x = false := by simp at hx; exact hx
      simp [updateFirst, hbx, ih]


/-! ### Behavioural lemmas about the four engine operations -/

/-- createSlot establishes the seat-count equality: the new slot starts
with availableSeats = maxSeats and (when its id is fresh) zero BOOKED
appointments, and no existing slot or appointment changes. -/
theorem createSlot_preserves_seatInvariant (sd : SlotData) (newId : String)
    (σ : Store) (hfresh : ∀ a ∈ σ.appointments, a.slotId ≠ newId)
    (hinv : seatInvariant σ) :
    seatInvariant (createSlot sd newId σ).2 := by
  unfold createSlot
  split
  · exact hinv
  · split
    · exact hinv
    · split
      · exact hinv
      · intro s hs
        simp only [List.mem_append, List.mem_singleton] at hs
        rcases hs with hs | rfl
        · exact hinv s hs
        · have hzero : σ.appointments.countP
              (fun a => a.slotId == newId && a.status == Status.BOOKED) = 0 :=
            List.countP_eq_zero.mpr (by intro a haa; simp [hfresh a haa])
          show sd.maxSeats = sd.maxSeats - bookedCount σ newId
          unfold bookedCount
          rw [hzero]
          omega

/-- bookAppointment preserves the seat-count equality: the appended
appointment is BOOKED on exactly the slot whose availableSeats it
decrements. -/
theorem bookAppointment_preserves_seatInvariant (slotId studentId : String)
    (notes : Option String) (now : Int) (newId : String) (σ : Store)
    (hnodup : slotIdsNodup σ) (hinv : seatInvariant σ) :
    seatInvariant (bookAppointment slotId studentId notes now newId σ).2 := by
  unfold bookAppointment
  split
  · exact hinv
  · split
    · exact hinv
    · rename_i slot hfs
      split
      · exact hinv
      · split
        · exact hinv
        · split
          · exact hinv
          · intro s hs
            rw [updateFirst_eq_map Slot.id slotId _ σ.slots hnodup] at hs
            rcases List.mem_map.mp hs with ⟨s₀, hs₀, rfl⟩
            have hcount : ∀ t : String,
                bookedCount { σ with
                  appointments := σ.appointments ++
                    [{ id := newId, slotId := slotId, studentId := studentId,
                       status := Status.BOOKED, notes := notes, createdAt := now,
                       cancelledAt := none }],
                  slots := updateFirst (fun s => s.id == slotId)
                    (fun s => { s with availableSeats := s.availableSeats - 1 })
                    σ.slots } t
                  = bookedCount σ t + (if slotId = t then 1 else 0) := by
              intro t
              unfold bookedCount
              rw [List.countP_append, Nat.cast_add]
              congr 1
              by_cases ht : slotId = t
              · simp [List.countP_cons, ht]
              · simp [List.countP_cons, ht]
            have hinv₀ := hinv s₀ hs₀
            have hcnt := hcount s₀.id
            by_cases hid : s₀.id = slotId
            · have hb : (s₀.id == slotId) = true := by simp [hid]
              rw [if_pos hid.symm] at hcnt
              simp only [hb, if_true]
              rw [hcnt]
              omega
            · have hb : (s₀.id == slotId) = false := by simp [hid]
              have hne : slotId ≠ s₀.id := fun hc => hid hc.symm
              rw [if_neg hne] at hcnt
              simp only [hb, Bool.false_eq_true, if_false]
              rw [hcnt]
              omega

/-- On every error path, bookAppointment hands back the store it was
given: all writes happen after the last validation. -/
theorem bookAppointment_result (slotId studentId : String) (notes : Option String)
    (now : Int) (newId : String) (σ : Store) :
    (∃ a, (bookAppointment slotId studentId notes now newId σ).1 = .ok a) ∨
      (bookAppointment slotId studentId notes now newId σ).2 = σ := by
  unfold bookAppointment
  split
  · right; rfl
  · split
    · right; rfl
    · split
      · right; rfl
      · split
        · right; rfl
        · split
          · right; rfl
          · left; exact ⟨_, rfl⟩

/-- Success shape of bookAppointment when every validation passes. -/
theorem bookAppointment_ok (slotId studentId : String) (notes : Option String)
    (now : Int) (newId : String) (σ : Store) (u : User) (slot : Slot)
    (hstu : σ.users.find? (fun u => u.id == studentId && u.role == Role.STUDENT) = some u)
    (hfs : σ.slots.find? (fun s => s.id == slotId) = some slot)
    (hseats : 0 < slot.availableSeats)
    (hwin : isBookingAllowed slot.startISO now = true)
    (hconf : hasConflict σ studentId slot = false) :
    bookAppointment slotId studentId notes now newId σ =
      (.ok { id := newId, slotId := slotId, studentId := studentId,
             status := Status.BOOKED, notes := notes, createdAt := now,
             cancelledAt := none },
        { σ with
          appointments := σ.appointments ++
            [{ id := newId, slotId := slotId, studentId := studentId,
               status := Status.BOOKED, notes := notes, createdAt := now,
               cancelledAt := none }],
          slots := updateFirst (fun s => s.id == slotId)
            (fun s => { s with availableSeats := s.availableSeats - 1 })
            σ.slots }) := by
  have h1 : ¬ slot.availableSeats ≤ 0 := by omega
  simp only [bookAppointment, hstu, hfs, h1, if_false, hwin, Bool.not_true,
    Bool.false_eq_true, hconf, if_true]

/-- Inversion of a successful bookAppointment: the returned appointment
and store have exactly the shape written by the success path. -/
theorem bookAppointment_ok_inv (slotId studentId : String) (notes : Option String)
    (now : Int) (newId : String) (σ : Store) (a : Appointment) (σ₂ : Store)
    (h : bookAppointment slotId studentId notes now newId σ = (.ok a, σ₂)) :
    a = { id := newId, slotId := slotId, studentId := studentId,
          status := Status.BOOKED, notes := notes, createdAt := now,
          cancelledAt := none } ∧
    (∃ slot, σ.slots.find? (fun s => s.id == slotId) = some slot) ∧
    σ₂ = { σ with
          appointments := σ.appointments ++ [a],
          slots := updateFirst (fun s => s.id == slotId)
            (fun s => { s with availableSeats := s.availableSeats - 1 })
            σ.slots } := by
  unfold bookAppointment at h
  split at h
  · simp at h
  · rename_i hstu
    split at h
    · simp at h
    · rename_i slot hfs
      split at h
      · simp at h
      · split at h
        · simp at h
        · split at h
          · simp at h
          · rw [Prod.mk.injEq] at h
            obtain ⟨h1, h2⟩ := h
            rw [Except.ok.injEq] at h1
            subst h1
            subst h2
            exact ⟨rfl, ⟨slot, hfs⟩, rfl⟩

/-- Success shape of cancelAppointment: the authorization check passes
iff the actor is the student or the owning teacher, and the 24-hour
window is only consulted for the student.  No status check appears. -/
theorem cancelAppointment_ok (appointmentId userId : String) (now : Int)
    (σ : Store) (a : Appointment) (s : Slot)
    (hfa : σ.appointments.find? (fun b => b.id == appointmentId) = some a)
    (hfs : σ.slots.find? (fun b => b.id == a.slotId) = some s)
    (hauth : a.studentId = userId ∨ s.teacherId = userId)
    (hwin : a.studentId = userId → isWithinCancellationWindow s.startISO now = true) :
    cancelAppointment appointmentId userId now σ =
      (.ok (),
        { σ with
          appointments := updateFirst (fun b => b.id == appointmentId)
            (fun b => { b with status := Status.CANCELLED, cancelledAt := some now })
            σ.appointments,
          slots := updateFirst (fun b => b.id == a.slotId)
            (fun b => { b with availableSeats := b.availableSeats + 1 })
            σ.slots }) := by
  have hc1 : (a.studentId != userId && s.teacherId != userId) = false := by
    rcases hauth with h | h <;> simp [h]
  have hc2 : (a.studentId == userId && !isWithinCancellationWindow s.startISO now) = false := by
    by_cases h : a.studentId = userId
    · simp [h, hwin h]
    · simp [h]
  simp only [cancelAppointment, hfa, hfs, hc1, hc2, Bool.false_eq_true, if_false]

/-- cancelAppointment fails with NotAuthorized when the actor is neither
the booking student nor the owning teacher. -/
theorem cancelAppointment_not_authorized (appointmentId userId : String)
    (now : Int) (σ : Store) (a : Appointment) (s : Slot)
    (hfa : σ.appointments.find? (fun b => b.id == appointmentId) = some a)
    (hfs : σ.slots.find? (fun b => b.id == a.slotId) = some s)
    (h1 : a.studentId ≠ userId) (h2 : s.teacherId ≠ userId) :
    cancelAppointment appointmentId userId now σ = (.error .NotAuthorized, σ) := by
  have hc1 : (a.studentId != userId && s.teacherId != userId) = true := by
    simp [h1, h2]
  simp [cancelAppointment, hfa, hfs, hc1]

/-- cancelAppointment fails with TooLateToCancel when the actor is the
booking student and fewer than (or exactly) 24 hours remain. -/
theorem cancelAppointment_too_late (appointmentId userId : String) (now : Int)
    (σ : Store) (a : Appointment) (s : Slot)
    (hfa : σ.appointments.find? (fun b => b.id == appointmentId) = some a)
    (hfs : σ.slots.find? (fun b => b.id == a.slotId) = some s)
    (hstud : a.studentId = userId)
    (hwin : isWithinCancellationWindow s.startISO now = false) :
    cancelAppointment appointmentId userId now σ = (.error .TooLateToCancel, σ) := by
  have hc1 : (a.studentId != userId && s.teacherId != userId) = false := by
    simp [hstud]
  have hc2 : (a.studentId == userId && !isWithinCancellationWindow s.startISO now) = true := by
    simp [hstud, hwin]
  simp [cancelAppointment, hfa, hfs, hc1, hc2]

/-- cancelAppointment fails (with the "Associated slot not found" error)
for any appointment whose slotId resolves to no slot, before any
authorization is consulted, and returns the store unchanged. -/
theorem cancelAppointment_dangling (appointmentId userId : String) (now : Int)
    (σ : Store) (a : Appointment)
    (hfa : σ.appointments.find? (fun b => b.id == appointmentId) = some a)
    (hfs : σ.slots.find? (fun b => b.id == a.slotId) = none) :
    cancelAppointment appointmentId userId now σ = (.error .AssociatedSlotNotFound, σ) := by
  simp [cancelAppointment, hfa, hfs]

/-- markAttended succeeds on every appointment that exists, whatever its
status, and only flips the status of the first matching appointment. -/
theorem markAttended_found (appointmentId : String) (σ : Store) (a : Appointment)
    (hfa : σ.appointments.find? (fun b => b.id == appointmentId) = some a) :
    markAttended appointmentId σ =
      (.ok (),
        { σ with
          appointments := updateFirst (fun b => b.id == appointmentId)
            (fun b => { b with status := Status.ATTENDED }) σ.appointments }) := by
  simp [markAttended, hfa]

/-- cancelAppointment preserves the seat-count equality provided the
cancelled appointment is currently BOOKED. -/
theorem cancelAppointment_preserves_seatInvariant (appointmentId userId : String)
    (now : Int) (σ : Store) (hnds : slotIdsNodup σ) (hnda : apptIdsNodup σ)
    (hinv : seatInvariant σ)
    (hbooked : ∀ a ∈ σ.appointments, a.id = appointmentId → a.status = Status.BOOKED) :
    seatInvariant (cancelAppointment appointmentId userId now σ).2 := by
  unfold cancelAppointment
  split
  · exact hinv
  · rename_i a hfa
    split
    · exact hinv
    · rename_i s hfs
      split
      · exact hinv
      · split
        · exact hinv
        · have hamem : a ∈ σ.appointments := List.mem_of_find?_eq_some hfa
          have haid : a.id = appointmentId := by
            have := List.find?_some hfa
            simpa using this
          have hstat : a.status = Status.BOOKED := hbooked a hamem haid
          have happ := updateFirst_eq_map Appointment.id appointmentId
            (fun b => { b with status := Status.CANCELLED, cancelledAt := some now })
            σ.appointments hnda
          intro s₀ hs₀
          rw [updateFirst_eq_map Slot.id a.slotId _ σ.slots hnds] at hs₀
          rcases List.mem_map.mp hs₀ with ⟨s₁, hs₁, rfl⟩
          have hinv₁ := hinv s₁ hs₁
          unfold bookedCount at hinv₁
          unfold bookedCount
          dsimp only
          rw [happ]
          by_cases hid : s₁.id = a.slotId
          · have hb : (s₁.id == a.slotId) = true := by simp [hid]
            have hdrop := countP_map_ite_of_true_false Appointment.id appointmentId
              (fun b => { b with status := Status.CANCELLED, cancelledAt := some now })
              (fun b => b.slotId == s₁.id && b.status == Status.BOOKED)
              σ.appointments hnda a hamem haid
              (by simp [hstat, hid]) (by simp)
            dsimp only at hdrop
            simp only [hb, if_true]
            omega
          · have hb : (s₁.id == a.slotId) = false := by simp [hid]
            have hkeep := countP_map_ite_of_false_false Appointment.id appointmentId
              (fun b => { b with status := Status.CANCELLED, cancelledAt := some now })
              (fun b => b.slotId == s₁.id && b.status == Status.BOOKED)
              σ.appointments hnda a hamem haid
              (by simp [hstat]; exact fun hc => hid hc.symm) (by simp)
            dsimp only at hkeep
            simp only [hb, Bool.false_eq_true, if_false]
            omega

/-- cancelAppointment preserves 0 ≤ availableSeats ≤ maxSeats provided
the cancelled appointment is currently BOOKED and the seat-count
equality held beforehand. -/
theorem cancelAppointment_preserves_seatBounds (appointmentId userId : String)
    (now : Int) (σ : Store) (hnds : slotIdsNodup σ) (hnda : apptIdsNodup σ)
    (hinv : seatInvariant σ) (hbnd : seatBounds σ)
    (hbooked : ∀ a ∈ σ.appointments, a.id = appointmentId → a.status = Status.BOOKED) :
    seatBounds (cancelAppointment appointmentId userId now σ).2 := by
  unfold cancelAppointment
  split
  · exact hbnd
  · rename_i a hfa
    split
    · exact hbnd
    · rename_i s hfs
      split
      · exact hbnd
      · split
        · exact hbnd
        · have hamem : a ∈ σ.appointments := List.mem_of_find?_eq_some hfa
          have haid : a.id = appointmentId := by
            have := List.find?_some hfa
            simpa using this
          have hstat : a.status = Status.BOOKED := hbooked a hamem haid
          intro s₀ hs₀
          rw [updateFirst_eq_map Slot.id a.slotId _ σ.slots hnds] at hs₀
          rcases List.mem_map.mp hs₀ with ⟨s₁, hs₁, rfl⟩
          have hinv₁ := hinv s₁ hs₁
          have hbnd₁ := hbnd s₁ hs₁
          by_cases hid : s₁.id = a.slotId
          · have hb : (s₁.id == a.slotId) = true := by simp [hid]
            have hpos : 0 < σ.appointments.countP
                (fun b => b.slotId == s₁.id && b.status == Status.BOOKED) := by
              rw [List.countP_pos_iff]
              exact ⟨a, hamem, by simp [hstat, hid]⟩
            simp only [hb, if_true]
            unfold bookedCount at hinv₁
            omega
          · have hb : (s₁.id == a.slotId) = false := by simp [hid]
            simp only [hb, Bool.false_eq_true, if_false]
            exact hbnd₁

/-- A successful cancellation adds exactly one (uncapped) to the
availableSeats of the appointment's slot. -/
theorem cancelAppointment_increments_seats (appointmentId userId : String)
    (now : Int) (σ : Store) (a : Appointment) (s : Slot)
    (hfa : σ.appointments.find? (fun b => b.id == appointmentId) = some a)
    (hfs : σ.slots.find? (fun b => b.id == a.slotId) = some s)
    (hauth : a.studentId = userId ∨ s.teacherId = userId)
    (hwin : a.studentId = userId → isWithinCancellationWindow s.startISO now = true) :
    seatsOf (cancelAppointment appointmentId userId now σ).2 a.slotId
      = some (s.availableSeats + 1) := by
  rw [cancelAppointment_ok appointmentId userId now σ a s hfa hfs hauth hwin]
  unfold seatsOf
  dsimp only
  rw [find?_updateFirst Slot.id a.slotId
    (fun b => { b with availableSeats := b.availableSeats + 1 }) (fun x => rfl)
    σ.slots, hfs]
  rfl

/-- Success of cancelAppointment, given that the appointment and its
slot exist, is exactly: the actor is the student or the teacher, and
when the actor is the student more than 24 hours remain.  The status of
the appointment plays no role. -/
theorem cancelAppointment_ok_iff (appointmentId userId : String) (now : Int)
    (σ : Store) (a : Appointment) (s : Slot)
    (hfa : σ.appointments.find? (fun b => b.id == appointmentId) = some a)
    (hfs : σ.slots.find? (fun b => b.id == a.slotId) = some s) :
    (cancelAppointment appointmentId userId now σ).1 = .ok () ↔
      ((a.studentId = userId ∨ s.teacherId = userId) ∧
        (a.studentId = userId → isWithinCancellationWindow s.startISO now = true)) := by
  constructor
  · intro hok
    simp only [cancelAppointment, hfa, hfs] at hok
    by_cases hc1 : (a.studentId != userId && s.teacherId != userId) = true
    · rw [if_pos hc1] at hok
      simp at hok
    · rw [if_neg hc1] at hok
      by_cases hc2 : (a.studentId == userId &&
          !isWithinCancellationWindow s.startISO now) = true
      · rw [if_pos hc2] at hok
        simp at hok
      · simp only [Bool.and_eq_true, bne_iff_ne, ne_eq, not_and, not_not] at hc1
        simp only [Bool.and_eq_true, beq_iff_eq, Bool.not_eq_true', not_and] at hc2
        constructor
        · by_cases hstu : a.studentId = userId
          · exact Or.inl hstu
          · exact Or.inr (hc1 hstu)
        · intro hstu
          by_cases hw : isWithinCancellationWindow s.startISO now = true
          · exact hw
          · exact absurd (Bool.not_eq_true _ |>.mp hw) (hc2 hstu)
  · intro h
    rw [cancelAppointment_ok appointmentId userId now σ a s hfa hfs h.1 h.2]

/-- A single book/cancel round trip restores the slots collection
exactly: the decrement of the booked slot is undone by the increment of
the cancellation, and no other slot is touched. -/
theorem bookCancelCycle_slots (slotId : String) (σ σ₂ : Store)
    (h : BookCancelCycle slotId σ σ₂) : σ₂.slots = σ.slots := by
  obtain ⟨studentId, notes, now, newId, actor, now₂, a, σ₁, hfresh, hbook, hok, hσ₂⟩ := h
  obtain ⟨ha, ⟨slot, hfs⟩, hσ₁⟩ :=
    bookAppointment_ok_inv slotId studentId notes now newId σ a σ₁ hbook
  have haid : a.id = newId := by rw [ha]
  have haslot : a.slotId = slotId := by rw [ha]
  have hfind : σ₁.appointments.find? (fun b => b.id == a.id) = some a := by
    rw [hσ₁]
    dsimp only
    rw [List.find?_append]
    have h1 : σ.appointments.find? (fun b => b.id == a.id) = none := by
      rw [List.find?_eq_none]
      intro b hb
      simp only [beq_eq_false_iff_ne, ne_eq, Bool.not_eq_true]
      rw [haid]
      simp [hfresh b hb]
    rw [h1]
    simp
  have hfs₁ : σ₁.slots.find? (fun b => b.id == a.slotId) =
      some { slot with availableSeats := slot.availableSeats - 1 } := by
    rw [hσ₁]
    dsimp only
    rw [haslot]
    rw [find?_updateFirst Slot.id slotId
      (fun s => { s with availableSeats := s.availableSeats - 1 }) (fun x => rfl)
      σ.slots]
    rw [hfs]
    rfl
  have hcond := (cancelAppointment_ok_iff a.id actor now₂ σ₁ a _ hfind hfs₁).mp hok
  rw [hσ₂, cancelAppointment_ok a.id actor now₂ σ₁ a _ hfind hfs₁ hcond.1 hcond.2]
  dsimp only
  rw [hσ₁]
  dsimp only
  rw [haslot]
  exact updateFirst_comp_cancel (fun s => s.id == slotId)
    (fun s => { s with availableSeats := s.availableSeats - 1 })
    (fun s => { s with availableSeats := s.availableSeats + 1 })
    (fun x => rfl) (fun x => by cases x; simp [Int.sub_add_cancel]) σ.slots

/-- Any number of book/cancel round trips restores the slots collection
exactly. -/
theorem bookCancelCycles_slots (slotId : String) :
    ∀ (n : Nat) (σ σ₂ : Store), bookCancelCycles slotId n σ σ₂ → σ₂.slots = σ.slots := by
  intro n
  induction n with
  | zero =>
    intro σ σ₂ h
    rw [h]
  | succ n ih =>
    intro σ σ₂ h
    obtain ⟨τ, hcycle, hrest⟩ := h
    rw [ih τ σ₂ hrest, bookCancelCycle_slots slotId σ τ hcycle]

/-! ### Claim theorems -/

/-- C1 (amended): the per-slot equality availableSeats = maxSeats − #BOOKED
is preserved by createSlot (given a fresh slot id) and by bookAppointment,
and by cancelAppointment provided the cancelled appointment is currently
BOOKED; it is not preserved by markAttended (see the counterexample), so it
does not hold after every operation as the original claim states. -/
theorem C1_seat_invariant_preservation :
    (∀ (sd : SlotData) (newId : String) (σ : Store),
        (∀ a ∈ σ.appointments, a.slotId ≠ newId) → seatInvariant σ →
        seatInvariant (createSlot sd newId σ).2) ∧
    (∀ (slotId studentId : String) (notes : Option String) (now : Int)
        (newId : String) (σ : Store), slotIdsNodup σ → seatInvariant σ →
        seatInvariant (bookAppointment slotId studentId notes now newId σ).2) ∧
    (∀ (appointmentId userId : String) (now : Int) (σ : Store),
        slotIdsNodup σ → apptIdsNodup σ → seatInvariant σ →
        (∀ a ∈ σ.appointments, a.id = appointmentId → a.status = Status.BOOKED) →
        seatInvariant (cancelAppointment appointmentId userId now σ).2) :=
  ⟨fun sd newId σ hf hi => createSlot_preserves_seatInvariant sd newId σ hf hi,
   fun slotId studentId notes now newId σ hn hi =>
     bookAppointment_preserves_seatInvariant slotId studentId notes now newId σ hn hi,
   fun appointmentId userId now σ h1 h2 h3 h4 =>
     cancelAppointment_preserves_seatInvariant appointmentId userId now σ h1 h2 h3 h4⟩

/-- C1 counterexample: starting from a reachable state satisfying the
seat-count equality, markAttended succeeds yet the equality fails
afterwards (the seat stays consumed while the BOOKED count drops). -/
theorem C1_counterexample :
    seatInvariant cexStore2 ∧
    (markAttended "a1" cexStore2).1 = .ok () ∧
    ¬ seatInvariant (markAttended "a1" cexStore2).2 := by
  refine ⟨?_, rfl, ?_⟩
  · unfold seatInvariant
    decide
  · unfold seatInvariant
    decide

/-- C1 witness: the three preservation statements applied at concrete
stores. -/
theorem C1_witness :
    seatInvariant (createSlot slotData1 "s1" store0).2 ∧
    seatInvariant (bookAppointment "s1" "st1" none 0 "a7" storeAvail).2 ∧
    seatInvariant (cancelAppointment "a1" "st1" 0 storeBooked).2 :=
  ⟨C1_seat_invariant_preservation.1 slotData1 "s1" store0 (by decide)
      (by unfold seatInvariant; decide),
   C1_seat_invariant_preservation.2.1 "s1" "st1" none 0 "a7" storeAvail
      (by unfold slotIdsNodup; decide) (by unfold seatInvariant; decide),
   C1_seat_invariant_preservation.2.2 "a1" "st1" 0 storeBooked
      (by unfold slotIdsNodup; decide) (by unfold apptIdsNodup; decide)
      (by unfold seatInvariant; decide) (by decide)⟩

/-- C2 (amended): the code performs no status check: markAttended
succeeds on every existing appointment regardless of its status, and an
authorized teacher-initiated cancelAppointment succeeds on an already
CANCELLED or ATTENDED appointment, incrementing availableSeats again;
no InvalidStateTransition error exists in the code. -/
theorem C2_no_status_check :
    (∀ (appointmentId : String) (σ : Store) (a : Appointment),
        σ.appointments.find? (fun b => b.id == appointmentId) = some a →
        (markAttended appointmentId σ).1 = .ok ()) ∧
    (∀ (appointmentId userId : String) (now : Int) (σ : Store)
        (a : Appointment) (s : Slot),
        σ.appointments.find? (fun b => b.id == appointmentId) = some a →
        σ.slots.find? (fun b => b.id == a.slotId) = some s →
        s.teacherId = userId → a.studentId ≠ userId →
        (cancelAppointment appointmentId userId now σ).1 = .ok () ∧
        seatsOf (cancelAppointment appointmentId userId now σ).2 a.slotId
          = some (s.availableSeats + 1)) := by
  constructor
  · intro appointmentId σ a hfa
    rw [markAttended_found appointmentId σ a hfa]
  · intro appointmentId userId now σ a s hfa hfs hteach hstu
    refine ⟨?_, cancelAppointment_increments_seats appointmentId userId now σ a s
      hfa hfs (Or.inr hteach) (fun h => absurd h hstu)⟩
    rw [cancelAppointment_ok appointmentId userId now σ a s hfa hfs
      (Or.inr hteach) (fun h => absurd h hstu)]

/-- C2 counterexample: cancelling an already-CANCELLED appointment is
accepted (and marking it attended is accepted too), where the claim
demands an InvalidStateTransition rejection. -/
theorem C2_counterexample :
    ((storeCancelled.appointments.find? (fun b => b.id == "a1")).map Appointment.status
        = some Status.CANCELLED) ∧
    (cancelAppointment "a1" "t1" 0 storeCancelled).1 = .ok () ∧
    (markAttended "a1" storeCancelled).1 = .ok () :=
  ⟨rfl, rfl, rfl⟩

/-- C2 witness: the amended statements applied at concrete stores with a
terminal-status appointment. -/
theorem C2_witness :
    (markAttended "a1" storeCancelled).1 = .ok () ∧
    (cancelAppointment "a1" "t1" 5 storeAttended).1 = .ok () ∧
    seatsOf (cancelAppointment "a1" "t1" 5 storeAttended).2 "s1" = some 1 := by
  have h2 := C2_no_status_check.2 "a1" "t1" 5 storeAttended
    { appt1Booked with status := Status.ATTENDED }
    { slot1 with availableSeats := 0 } rfl rfl rfl (by decide)
  exact ⟨C2_no_status_check.1 "a1" storeCancelled
    { appt1Booked with status := Status.CANCELLED, cancelledAt := some 0 } rfl,
    h2.1, by simpa [appt1Booked] using h2.2⟩

/-- C3: bookAppointment validates in the fixed source order — student
role, slot existence, seats, booking window, conflicts — the first
failing condition determining the error, and on success it appends a
BOOKED appointment and decrements that slot's availableSeats by exactly
one. -/
theorem C3_bookAppointment_validation :
    ∀ (slotId studentId : String) (notes : Option String) (now : Int)
      (newId : String) (σ : Store),
      (σ.users.find? (fun u => u.id == studentId && u.role == Role.STUDENT) = none →
        bookAppointment slotId studentId notes now newId σ =
          (.error .InvalidStudent, σ)) ∧
      (∀ u, σ.users.find? (fun u => u.id == studentId && u.role == Role.STUDENT) = some u →
        σ.slots.find? (fun s => s.id == slotId) = none →
        bookAppointment slotId studentId notes now newId σ =
          (.error .SlotNotFound, σ)) ∧
      (∀ u slot, σ.users.find? (fun u => u.id == studentId && u.role == Role.STUDENT) = some u →
        σ.slots.find? (fun s => s.id == slotId) = some slot →
        slot.availableSeats ≤ 0 →
        bookAppointment slotId studentId notes now newId σ =
          (.error .SlotFull, σ)) ∧
      (∀ u slot, σ.users.find? (fun u => u.id == studentId && u.role == Role.STUDENT) = some u →
        σ.slots.find? (fun s => s.id == slotId) = some slot →
        0 < slot.availableSeats →
        isBookingAllowed slot.startISO now = false →
        bookAppointment slotId studentId notes now newId σ =
          (.error .TooLateToBook, σ)) ∧
      (∀ u slot, σ.users.find? (fun u => u.id == studentId && u.role == Role.STUDENT) = some u →
        σ.slots.find? (fun s => s.id == slotId) = some slot →
        0 < slot.availableSeats →
        isBookingAllowed slot.startISO now = true →
        hasConflict σ studentId slot = true →
        bookAppointment slotId studentId notes now newId σ =
          (.error .ConflictingAppointment, σ)) ∧
      (∀ u slot, σ.users.find? (fun u => u.id == studentId && u.role == Role.STUDENT) = some u →
        σ.slots.find? (fun s => s.id == slotId) = some slot →
        0 < slot.availableSeats →
        isBookingAllowed slot.startISO now = true →
        hasConflict σ studentId slot = false →
        ∃ a, bookAppointment slotId studentId notes now newId σ =
            (.ok a,
              { σ with
                appointments := σ.appointments ++ [a],
                slots := updateFirst (fun s => s.id == slotId)
                  (fun s => { s with availableSeats := s.availableSeats - 1 })
                  σ.slots }) ∧
          a.status = Status.BOOKED ∧ a.slotId = slotId ∧
          a.studentId = studentId ∧ a.createdAt = now ∧
          seatsOf (bookAppointment slotId studentId notes now newId σ).2 slotId
            = some (slot.availableSeats - 1)) := by
  intro slotId studentId notes now newId σ
  refine ⟨?_, ?_, ?_, ?_, ?_, ?_⟩
  · intro h
    simp [bookAppointment, h]
  · intro u hu hns
    simp [bookAppointment, hu, hns]
  · intro u slot hu hs hseats
    simp [bookAppointment, hu, hs, if_pos hseats]
  · intro u slot hu hs hseats hwin
    have h1 : ¬ slot.availableSeats ≤ 0 := by omega
    simp [bookAppointment, hu, hs, h1, hwin]
  · intro u slot hu hs hseats hwin hconf
    have h1 : ¬ slot.availableSeats ≤ 0 := by omega
    simp [bookAppointment, hu, hs, h1, hwin, hconf]
  · intro u slot hu hs hseats hwin hconf
    refine ⟨{ id := newId, slotId := slotId, studentId := studentId,
              status := Status.BOOKED, notes := notes, createdAt := now,
              cancelledAt := none }, ?_, rfl, rfl, rfl, rfl, ?_⟩
    · exact bookAppointment_ok slotId studentId notes now newId σ u slot
        hu hs hseats hwin hconf
    · rw [bookAppointment_ok slotId studentId notes now newId σ u slot
        hu hs hseats hwin hconf]
      unfold seatsOf
      dsimp only
      rw [find?_updateFirst Slot.id slotId
        (fun s => { s with availableSeats := s.availableSeats - 1 }) (fun x => rfl)
        σ.slots, hs]
      rfl

/-- C3 witness: a full slot is rejected with SlotFull and a successful
booking decrements seats from 1 to 0. -/
theorem C3_witness :
    bookAppointment "s1" "st2" none 0 "a8" storeBooked = (.error .SlotFull, storeBooked) ∧
    seatsOf (bookAppointment "s1" "st1" none 0 "a7" storeAvail).2 "s1" = some 0 := by
  constructor
  · exact (C3_bookAppointment_validation "s1" "st2" none 0 "a8" storeBooked).2.2.1
      student2 { slot1 with availableSeats := 0 } rfl rfl (by decide)
  · obtain ⟨a, hbook, hst, hsl, hstu, hcr, hseats⟩ :=
      (C3_bookAppointment_validation "s1" "st1" none 0 "a7" storeAvail).2.2.2.2.2
        student1 slot1 rfl rfl (by decide) (by decide) (by decide)
    simpa [slot1] using hseats

/-- C4 (amended): a successful cancellation adds exactly one to the
slot's availableSeats with no cap at maxSeats; the bounds
0 ≤ availableSeats ≤ maxSeats are preserved when the cancelled
appointment is currently BOOKED and the seat-count equality held, but
not in general (see the counterexample: a second cancellation pushes
availableSeats above maxSeats). -/
theorem C4_seat_bounds :
    (∀ (appointmentId userId : String) (now : Int) (σ : Store)
        (a : Appointment) (s : Slot),
        σ.appointments.find? (fun b => b.id == appointmentId) = some a →
        σ.slots.find? (fun b => b.id == a.slotId) = some s →
        (a.studentId = userId ∨ s.teacherId = userId) →
        (a.studentId = userId → isWithinCancellationWindow s.startISO now = true) →
        seatsOf (cancelAppointment appointmentId userId now σ).2 a.slotId
          = some (s.availableSeats + 1)) ∧
    (∀ (appointmentId userId : String) (now : Int) (σ : Store),
        slotIdsNodup σ → apptIdsNodup σ → seatInvariant σ → seatBounds σ →
        (∀ a ∈ σ.appointments, a.id = appointmentId → a.status = Status.BOOKED) →
        seatBounds (cancelAppointment appointmentId userId now σ).2) :=
  ⟨cancelAppointment_increments_seats, cancelAppointment_preserves_seatBounds⟩

/-- C4 counterexample: cancelling the same (already CANCELLED)
appointment again succeeds and drives availableSeats to 2 on a slot with
maxSeats = 1 — the increment is not capped and the bounds are violated. -/
theorem C4_counterexample :
    seatBounds storeCancelled ∧
    (cancelAppointment "a1" "t1" 0 storeCancelled).1 = .ok () ∧
    seatsOf (cancelAppointment "a1" "t1" 0 storeCancelled).2 "s1" = some 2 ∧
    ¬ seatBounds (cancelAppointment "a1" "t1" 0 storeCancelled).2 := by
  refine ⟨?_, rfl, rfl, ?_⟩
  · unfold seatBounds
    decide
  · unfold seatBounds
    decide

/-- C4 witness: the amended statements applied at a concrete store. -/
theorem C4_witness :
    seatsOf (cancelAppointment "a1" "st1" 0 storeBooked).2 "s1" = some 1 ∧
    seatBounds (cancelAppointment "a1" "st1" 0 storeBooked).2 := by
  constructor
  · have h := C4_seat_bounds.1 "a1" "st1" 0 storeBooked appt1Booked
      { slot1 with availableSeats := 0 } rfl rfl (Or.inl rfl) (fun _ => by decide)
    simpa [appt1Booked] using h
  · exact C4_seat_bounds.2 "a1" "st1" 0 storeBooked
      (by unfold slotIdsNodup; decide) (by unfold apptIdsNodup; decide)
      (by unfold seatInvariant; decide) (by unfold seatBounds; decide) (by decide)

/-- C5: cancelAppointment rejects an actor who is neither the booking
student nor the owning teacher with NotAuthorized; a student actor is
additionally subject to the 24-hour window (TooLateToCancel), while a
teacher actor succeeds regardless of the window. -/
theorem C5_cancel_authorization :
    (∀ (appointmentId userId : String) (now : Int) (σ : Store)
        (a : Appointment) (s : Slot),
        σ.appointments.find? (fun b => b.id == appointmentId) = some a →
        σ.slots.find? (fun b => b.id == a.slotId) = some s →
        a.studentId ≠ userId → s.teacherId ≠ userId →
        cancelAppointment appointmentId userId now σ = (.error .NotAuthorized, σ)) ∧
    (∀ (appointmentId userId : String) (now : Int) (σ : Store)
        (a : Appointment) (s : Slot),
        σ.appointments.find? (fun b => b.id == appointmentId) = some a →
        σ.slots.find? (fun b => b.id == a.slotId) = some s →
        a.studentId = userId →
        isWithinCancellationWindow s.startISO now = false →
        cancelAppointment appointmentId userId now σ = (.error .TooLateToCancel, σ)) ∧
    (∀ (appointmentId userId : String) (now : Int) (σ : Store)
        (a : Appointment) (s : Slot),
        σ.appointments.find? (fun b => b.id == appointmentId) = some a →
        σ.slots.find? (fun b => b.id == a.slotId) = some s →
        s.teacherId = userId → a.studentId ≠ userId →
        (cancelAppointment appointmentId userId now σ).1 = .ok ()) :=
  ⟨cancelAppointment_not_authorized, cancelAppointment_too_late,
   fun appointmentId userId now σ a s hfa hfs ht hstu => by
     rw [cancelAppointment_ok appointmentId userId now σ a s hfa hfs
       (Or.inr ht) (fun h => absurd h hstu)]⟩

/-- C5 witness: at exactly 23 hours before the slot start the student's
cancellation fails with TooLateToCancel, the teacher's succeeds, and a
stranger is rejected with NotAuthorized. -/
theorem C5_witness :
    cancelAppointment "a1" "st1" 277200000 storeBooked
      = (.error .TooLateToCancel, storeBooked) ∧
    (cancelAppointment "a1" "t1" 277200000 storeBooked).1 = .ok () ∧
    cancelAppointment "a1" "intruder" 277200000 storeBooked
      = (.error .NotAuthorized, storeBooked) :=
  ⟨C5_cancel_authorization.2.1 "a1" "st1" 277200000 storeBooked appt1Booked
      { slot1 with availableSeats := 0 } rfl rfl rfl (by decide),
   C5_cancel_authorization.2.2 "a1" "t1" 277200000 storeBooked appt1Booked
      { slot1 with availableSeats := 0 } rfl rfl rfl (by decide),
   C5_cancel_authorization.1 "a1" "intruder" 277200000 storeBooked appt1Booked
      { slot1 with availableSeats := 0 } rfl rfl (by decide) (by decide)⟩

/-- C6: slotsOverlap implements half-open overlap: true iff
aStart < bEnd and bStart < aEnd; touching ranges such as 10:00-11:00 and
11:00-12:00 (in milliseconds of the day) do not overlap, while
10:00-11:00 and 10:30-11:30 do. -/
theorem C6_rangesOverlap :
    (∀ aStart aEnd bStart bEnd : Int,
        slotsOverlap aStart aEnd bStart bEnd = true ↔
          (aStart < bEnd ∧ bStart < aEnd)) ∧
    slotsOverlap 36000000 39600000 39600000 43200000 = false ∧
    slotsOverlap 36000000 39600000 37800000 41400000 = true := by
  refine ⟨?_, by decide, by decide⟩
  intro a b c d
  simp [slotsOverlap]

/-- C7: the booking window accepts exactly the instants strictly more
than one hour (3600000 ms) before the slot start, and the cancellation
window exactly those strictly more than 24 hours (86400000 ms) before;
at the boundaries the operations fail with TooLateToBook and
TooLateToCancel respectively. -/
theorem C7_time_windows :
    (∀ slotStart now : Int,
        isBookingAllowed slotStart now = true ↔ slotStart - now > 3600000) ∧
    (∀ slotStart now : Int,
        isWithinCancellationWindow slotStart now = true ↔
          slotStart - now > 86400000) ∧
    isBookingAllowed 3660000 0 = true ∧
    isBookingAllowed 3600000 0 = false ∧
    isWithinCancellationWindow 90000000 0 = true ∧
    isWithinCancellationWindow 86400000 0 = false ∧
    (bookAppointment "s1" "st1" none 356400000 "a7" storeAvail).1
      = .error .TooLateToBook ∧
    (cancelAppointment "a1" "st1" 273600000 storeBooked).1
      = .error .TooLateToCancel := by
  refine ⟨?_, ?_, by decide, by decide, by decide, by decide, rfl, rfl⟩
  · intro s n
    unfold isBookingAllowed hoursUntil
    rw [decide_eq_true_iff, Rat.divInt_eq_div, gt_iff_lt,
      lt_div_iff₀ (by norm_num : (0:ℚ) < ((1000 * 60 * 60 : Int) : ℚ)), one_mul]
    constructor
    · intro h
      have h2 : (1000 * 60 * 60 : Int) < s - n := by exact_mod_cast h
      omega
    · intro h
      have h2 : (1000 * 60 * 60 : Int) < s - n := by omega
      exact_mod_cast h2
  · intro s n
    unfold isWithinCancellationWindow hoursUntil
    rw [decide_eq_true_iff, Rat.divInt_eq_div, gt_iff_lt,
      lt_div_iff₀ (by norm_num : (0:ℚ) < ((1000 * 60 * 60 : Int) : ℚ))]
    constructor
    · intro h
      have h2 : (24 * (1000 * 60 * 60) : Int) < s - n := by exact_mod_cast h
      omega
    · intro h
      have h2 : (24 * (1000 * 60 * 60) : Int) < s - n := by omega
      exact_mod_cast h2

/-- C8: any number of successful book-then-cancel round trips on a slot
returns the slots collection — in particular that slot's availableSeats
— exactly to its initial value: no drift. -/
theorem C8_book_cancel_roundtrip :
    ∀ (slotId : String) (n : Nat) (σ σ₂ : Store),
      bookCancelCycles slotId n σ σ₂ →
      σ₂.slots = σ.slots ∧ seatsOf σ₂ slotId = seatsOf σ slotId := by
  intro slotId n σ σ₂ h
  have hs := bookCancelCycles_slots slotId n σ σ₂ h
  refine ⟨hs, ?_⟩
  unfold seatsOf
  rw [hs]

/-- C8 witness: one concrete book/cancel round trip, with the slots
collection restored exactly. -/
theorem C8_witness :
    bookCancelCycles "s1" 1 storeAvail c8σ₂ ∧ c8σ₂.slots = storeAvail.slots := by
  have hchain : bookCancelCycles "s1" 1 storeAvail c8σ₂ := by
    refine ⟨c8σ₂, ?_, rfl⟩
    exact ⟨"st1", none, 0, "a9", "t1", 0,
      { id := "a9", slotId := "s1", studentId := "st1", status := Status.BOOKED,
        notes := none, createdAt := 0, cancelledAt := none }, c8σ₁,
      by decide, rfl, rfl, rfl⟩
  exact ⟨hchain, (C8_book_cancel_roundtrip "s1" 1 storeAvail c8σ₂ hchain).1⟩

/-- C9: whenever bookAppointment reports any of its five validation
errors, the returned store is exactly the input store — neither the
appointments nor the slots collection has been written. -/
theorem C9_book_error_no_write :
    ∀ (slotId studentId : String) (notes : Option String) (now : Int)
      (newId : String) (σ : Store) (e : BookErr),
      (bookAppointment slotId studentId notes now newId σ).1 = .error e →
      (bookAppointment slotId studentId notes now newId σ).2 = σ := by
  intro slotId studentId notes now newId σ e h
  rcases bookAppointment_result slotId studentId notes now newId σ with ⟨a, ha⟩ | hσ
  · rw [ha] at h
    simp at h
  · exact hσ

/-- C9 witness: a rejected booking (unknown student) leaves the store
untouched. -/
theorem C9_witness :
    (bookAppointment "s1" "ghost" none 0 "a7" storeAvail).2 = storeAvail :=
  C9_book_error_no_write "s1" "ghost" none 0 "a7" storeAvail .InvalidStudent rfl

/-- C10: for an appointment whose slotId resolves to no slot,
cancelAppointment fails — with the "Associated slot not found" error,
which the specification's taxonomy does not list — before any
authorization check (the error is independent of the acting user), and
the store is returned unchanged. -/
theorem C10_cancel_dangling_slot :
    ∀ (appointmentId userId : String) (now : Int) (σ : Store) (a : Appointment),
      σ.appointments.find? (fun b => b.id == appointmentId) = some a →
      σ.slots.find? (fun b => b.id == a.slotId) = none →
      cancelAppointment appointmentId userId now σ =
        (.error .AssociatedSlotNotFound, σ) :=
  cancelAppointment_dangling

/-- C10 witness: the dangling appointment of storeDangling. -/
theorem C10_witness :
    cancelAppointment "a2" "st1" 0 storeDangling
      = (.error .AssociatedSlotNotFound, storeDangling) :=
  C10_cancel_dangling_slot "a2" "st1" 0 storeDangling
    { id := "a2", slotId := "ghost", studentId := "st1", status := Status.BOOKED,
      notes := none, createdAt := 0, cancelledAt := none } rfl rfl
